import Mathlib

/-!
Verification development for the wecan-comply-middleware gateway.

The definitions below are a shallow embedding of the TypeScript source:

* `Middleware.parseIntJS`, `Middleware.jsTruthyStr`, `Middleware.jsOrElse`
  model the JavaScript primitives used by `src/config/index.ts`
  (`parseInt(s, 10)`, string truthiness, the `||` default operator).
* `Middleware.resolve` embeds the construction of the exported `config`
  object of `src/config/index.ts`.
* `Middleware.getSDKClient` / `Middleware.resetSDKClient` embed the
  lifecycle manager of `src/services/sdk-client.ts`, sequential view;
  `Middleware.sdkStep` / `Middleware.sdkRun` give the interleaving
  (cooperative-scheduling) view of the same code, with one atomic segment
  per region between `await` points.
* `Middleware.JVal` and the route handlers embed the Express route
  handlers of `src/routes/vault.ts` and the health route.
-/

namespace Middleware

/-- JavaScript truthiness of `string | undefined`: `undefined` and the
empty string are falsy, every other string is truthy. -/
def jsTruthyStr : Option String → Bool
  | none => false
  | some s => decide (s ≠ "")

/-- JavaScript `x || d` for `x : string | undefined` and a string default:
the default is taken when `x` is falsy. -/
def jsOrElse (x : Option String) (d : String) : String :=
  match x with
  | none => d
  | some s => if s = "" then d else s

/-- Character set skipped by `parseInt` before the number: leading
whitespace. -/
def isJsSpace (c : Char) : Bool :=
  c = ' ' || c = '\t' || c = '\n' || c = '\r'

/-- Numeric value of a decimal digit character. -/
def digitValue (c : Char) : Nat := c.toNat - 48

/-- JavaScript `parseInt(s, 10)`: skip leading whitespace, read an
optional sign, then the longest prefix of decimal digits; `none` models
`NaN` (no digits found). A trailing non-digit suffix is ignored. -/
def parseIntJS (s : String) : Option Int :=
  let l := s.data.dropWhile isJsSpace
  let negative := l.head? = some '-'
  let rest := if l.head? = some '-' || l.head? = some '+' then l.tail else l
  let ds := rest.takeWhile Char.isDigit
  if ds.isEmpty then none
  else
    let m : Nat := ds.foldl (fun acc c => 10 * acc + digitValue c) 0
    if negative then some (-(m : Int)) else some (m : Int)

/-- The character list of the decimal rendering of a positive natural
number: its base-10 digits, most significant first. -/
def natDecChars (n : Nat) : List Char :=
  ((Nat.digits 10 n).map (fun d => Char.ofNat (d + 48))).reverse

/-- Decimal rendering of a natural number, as JavaScript `String(n)`
produces it for a nonnegative integer. -/
def natDecString (n : Nat) : String :=
  if n = 0 then "0" else String.mk (natDecChars n)

/-- Decimal rendering of an integer, as JavaScript `String(n)` produces
it for an integral number. -/
def intDecString (i : Int) : String :=
  match i with
  | .ofNat n => natDecString n
  | .negSucc n => "-" ++ natDecString (n + 1)

lemma digitChar_props {d : Nat} (h : d < 10) :
    (Char.ofNat (d + 48)).isDigit = true ∧ isJsSpace (Char.ofNat (d + 48)) = false ∧
      Char.ofNat (d + 48) ≠ '-' ∧ Char.ofNat (d + 48) ≠ '+' ∧
      digitValue (Char.ofNat (d + 48)) = d := by
  interval_cases d <;> refine ⟨by decide, by decide, by decide, by decide, by decide⟩

lemma natDecChars_mem {n : Nat} {c : Char} (hc : c ∈ natDecChars n) :
    ∃ d, d < 10 ∧ c = Char.ofNat (d + 48) := by
  simp only [natDecChars, List.mem_reverse, List.mem_map] at hc
  obtain ⟨d, hd, rfl⟩ := hc
  exact ⟨d, Nat.digits_lt_base (by norm_num) hd, rfl⟩

lemma natDecChars_ne_nil {n : Nat} (h : n ≠ 0) : natDecChars n ≠ [] := by
  simp only [natDecChars, ne_eq, List.reverse_eq_nil_iff, List.map_eq_nil_iff]
  simpa using Nat.digits_ne_nil_iff_ne_zero.mpr h

lemma dropWhile_eq_self_of_not {p : Char → Bool} {l : List Char}
    (h : ∀ c ∈ l, p c = false) : l.dropWhile p = l := by
  cases l with
  | nil => rfl
  | cons a t => simp [List.dropWhile_cons, h a (List.mem_cons_self a t)]

lemma headOpt_mem {α : Type} {l : List α} {a : α} (h : l.head? = some a) : a ∈ l := by
  cases l with
  | nil => simp at h
  | cons b t =>
    simp only [List.head?_cons, Option.some.injEq] at h
    subst h
    exact List.mem_cons_self b t

lemma natDecChars_fold (n : Nat) :
    (natDecChars n).foldl (fun acc c => 10 * acc + digitValue c) 0 = n := by
  have hall : ∀ d ∈ Nat.digits 10 n, d < 10 :=
    fun d hd => Nat.digits_lt_base (by norm_num) hd
  have key : ∀ (L : List Nat), (∀ d ∈ L, d < 10) →
      L.foldr (fun d y => 10 * y + digitValue (Char.ofNat (d + 48))) 0 = Nat.ofDigits 10 L := by
    intro L
    induction L with
    | nil => intro _; simp [Nat.ofDigits_nil]
    | cons d t ih =>
      intro hL
      have hd : d < 10 := hL d (List.mem_cons_self d t)
      have ht := ih (fun x hx => hL x (List.mem_cons_of_mem d hx))
      simp only [List.foldr_cons, ht, Nat.ofDigits_cons,
        (digitChar_props hd).2.2.2.2]
      omega
  calc (natDecChars n).foldl (fun acc c => 10 * acc + digitValue c) 0
      = ((Nat.digits 10 n).map (fun d => Char.ofNat (d + 48))).foldr
          (fun c y => 10 * y + digitValue c) 0 := by
        simp [natDecChars, List.foldl_reverse]
    _ = (Nat.digits 10 n).foldr (fun d y => 10 * y + digitValue (Char.ofNat (d + 48))) 0 := by
        simp [List.foldr_map]
    _ = Nat.ofDigits 10 (Nat.digits 10 n) := key _ hall
    _ = n := Nat.ofDigits_digits 10 n

lemma parseIntJS_natDecChars {n : Nat} (h : n ≠ 0) :
    parseIntJS (String.mk (natDecChars n)) = some (n : Int) := by
  have hmem := @natDecChars_mem n
  have hfold := natDecChars_fold n
  have hdigit : ∀ c ∈ natDecChars n, c.isDigit = true := by
    intro c hc
    obtain ⟨d, hd, rfl⟩ := hmem hc
    exact (digitChar_props hd).1
  have htake : (natDecChars n).takeWhile Char.isDigit = natDecChars n :=
    List.takeWhile_eq_self_iff.mpr hdigit
  obtain ⟨a, t, hl⟩ : ∃ a t, natDecChars n = a :: t := by
    cases hl : natDecChars n with
    | nil => exact absurd hl (natDecChars_ne_nil h)
    | cons a t => exact ⟨a, t, rfl⟩
  obtain ⟨d, hd, ha⟩ : ∃ d, d < 10 ∧ a = Char.ofNat (d + 48) := by
    exact hmem (c := a) (by rw [hl]; exact List.mem_cons_self a t)
  have hsp : isJsSpace a = false := ha ▸ (digitChar_props hd).2.1
  have hane : a ≠ '-' := ha ▸ (digitChar_props hd).2.2.1
  have hape : a ≠ '+' := ha ▸ (digitChar_props hd).2.2.2.1
  rw [hl] at hfold htake
  have hdata : (String.mk (a :: t)).data = a :: t := rfl
  rw [hl]
  simp [parseIntJS, hdata, List.dropWhile_cons, hsp, List.head?_cons, hane, hape,
    htake, hfold]

lemma parseIntJS_natDecString (n : Nat) : parseIntJS (natDecString n) = some (n : Int) := by
  by_cases h : n = 0
  · subst h; decide
  · rw [natDecString, if_neg h]; exact parseIntJS_natDecChars h

/-- Round trip of the two JavaScript primitives the configuration code
composes on the no-override path: `parseInt(String(i), 10)` recovers any
integral value `i`. -/
lemma parseIntJS_intDecString (i : Int) : parseIntJS (intDecString i) = some i := by
  cases i with
  | ofNat n => exact parseIntJS_natDecString n
  | negSucc n =>
    have h1 : (n + 1 : Nat) ≠ 0 := Nat.succ_ne_zero n
    have hdigit : ∀ c ∈ natDecChars (n + 1), c.isDigit = true := by
      intro c hc
      obtain ⟨d, hd, rfl⟩ := natDecChars_mem hc
      exact (digitChar_props hd).1
    have htake := List.takeWhile_eq_self_iff.mpr hdigit
    have hfold := natDecChars_fold (n + 1)
    have hne := natDecChars_ne_nil h1
    have hdata : (intDecString (Int.negSucc n)).data = '-' :: natDecChars (n + 1) := by
      show ("-" ++ natDecString (n + 1)).data = _
      rw [String.data_append, natDecString, if_neg h1]
      rfl
    have hemp : (natDecChars (n + 1)).isEmpty = false := by
      cases hl : natDecChars (n + 1) with
      | nil => exact absurd hl hne
      | cons a t => rfl
    have hsp : isJsSpace '-' = false := by decide
    rw [show (Int.negSucc n) = -((n : Int) + 1) from Int.negSucc_eq n]
    rw [show intDecString (-((n : Int) + 1)) = intDecString (Int.negSucc n) from by
      rw [Int.negSucc_eq n]]
    simp only [parseIntJS, hdata, List.dropWhile_cons, hsp, Bool.false_eq_true,
      if_false, List.head?_cons, List.tail_cons, htake, hemp, hfold]
    simp only [List.isEmpty_iff]
    simp [htake, hfold, hne]

/-! ## Configuration resolver (`src/config/index.ts`)

The exported `config` object is built once from the parsed
`config/default.json` (the `AppConfig`-typed `defaultConfig`) and
`process.env`. `resolve` embeds exactly the record expression at lines
45-63 of `src/config/index.ts`; the modelled process environment is the
record of the environment variables that expression reads. Numeric
resolved fields are `Option Int`, `none` standing for `NaN`. -/

/-- Resolved server section (`ServerConfig` in the source). -/
structure ServerConfig where
  port : Option Int
  host : String
deriving DecidableEq, Repr

/-- Resolved backend-client section (`WecanComplyConfig` in the source). -/
structure WecanComplyConfig where
  workspaceUrlTemplate : String
  timeoutMs : Option Int
  retries : Option Int
deriving DecidableEq, Repr

/-- Logging section (`LoggingConfig` in the source). -/
structure LoggingConfig where
  level : String
  format : String
deriving DecidableEq, Repr

/-- CORS section (`CorsConfig` in the source). -/
structure CorsConfig where
  enabled : Bool
  origin : String
deriving DecidableEq, Repr

/-- The resolved configuration (`AppConfig` in the source). -/
structure AppConfig where
  server : ServerConfig
  wecanComply : WecanComplyConfig
  logging : LoggingConfig
  cors : CorsConfig
deriving DecidableEq, Repr

/-- The file-provided defaults (`defaultConfig`, parsed from
`config/default.json`); its numeric fields are integral JSON numbers. -/
structure FileServerConfig where
  port : Int
  host : String
deriving DecidableEq, Repr

/-- File-provided backend-client defaults. -/
structure FileWecanComplyConfig where
  workspaceUrlTemplate : String
  timeoutMs : Int
  retries : Int
deriving DecidableEq, Repr

/-- File-provided defaults for all sections. -/
structure FileAppConfig where
  server : FileServerConfig
  wecanComply : FileWecanComplyConfig
  logging : LoggingConfig
  cors : CorsConfig
deriving DecidableEq, Repr

/-- The environment variables read by `src/config/index.ts`; `none` is an
unset variable. -/
structure Env where
  PORT : Option String
  HOST : Option String
  WECAN_WORKSPACE_URL_TEMPLATE : Option String
  WECAN_TIMEOUT_MS : Option String
  WECAN_RETRIES : Option String
  LOG_LEVEL : Option String
  LOG_FORMAT : Option String
  CORS_ENABLED : Option String
  CORS_ORIGIN : Option String
  WECAN_ACCESS_TOKEN : Option String
deriving DecidableEq, Repr

/-- The construction of the exported `config` object
(`src/config/index.ts`, lines 45-63): each field merges the environment
variable with the file default exactly as the source expression does. -/
def resolve (env : Env) (defaultConfig : FileAppConfig) : AppConfig :=
  { server := {
      port := parseIntJS (jsOrElse env.PORT (intDecString defaultConfig.server.port)),
      host := jsOrElse env.HOST defaultConfig.server.host },
    wecanComply := {
      workspaceUrlTemplate :=
        jsOrElse env.WECAN_WORKSPACE_URL_TEMPLATE defaultConfig.wecanComply.workspaceUrlTemplate,
      timeoutMs :=
        parseIntJS (jsOrElse env.WECAN_TIMEOUT_MS (intDecString defaultConfig.wecanComply.timeoutMs)),
      retries :=
        parseIntJS (jsOrElse env.WECAN_RETRIES (intDecString defaultConfig.wecanComply.retries)) },
    logging := {
      level := jsOrElse env.LOG_LEVEL defaultConfig.logging.level,
      format := jsOrElse env.LOG_FORMAT defaultConfig.logging.format },
    cors := {
      enabled := env.CORS_ENABLED ≠ some "false",
      origin := jsOrElse env.CORS_ORIGIN defaultConfig.cors.origin } }

/-- The `sensitiveConfig` object: the access token comes only from the
environment. -/
def sensitiveAccessToken (env : Env) : Option String :=
  env.WECAN_ACCESS_TOKEN

/-! ## Backend client lifecycle manager (`src/services/sdk-client.ts`)

The module state is `let sdkClient: WecanComply | null = null`; client
handles are modelled as `Nat` identifiers. `getSDKClient` below is the
sequential (uninterleaved) run of one call: it returns the new module
state, the outcome (`Except` models a thrown error), and whether
`WecanComply.create` was invoked during the call. The environment fixes
the access token and the outcome `WecanComply.create` would have. -/

deriving instance DecidableEq for Except

/-- Environment of one `getSDKClient` call: the configured access token
and the result the backend `WecanComply.create` call would produce
(`Except.error` models `create` throwing). -/
structure SdkEnv where
  accessToken : Option String
  createResult : Except String Nat
deriving DecidableEq, Repr

/-- Outcome of one sequential `getSDKClient` call. -/
structure SdkCallOutcome where
  state : Option Nat
  result : Except String Nat
  didCreate : Bool
deriving DecidableEq, Repr

/-- The thrown message when the secret token is absent. -/
def missingTokenMsg : String :=
  "WECAN_ACCESS_TOKEN must be set in environment variables"

/-- One sequential call to `getSDKClient` (lines 10-38 of
`src/services/sdk-client.ts`): return the cached handle if present;
throw if the token is falsy; otherwise call `WecanComply.create`, store
the handle on success and rethrow on failure (leaving the module state
untouched, since the assignment never runs). -/
def getSDKClient (env : SdkEnv) (sdkClient : Option Nat) : SdkCallOutcome :=
  match sdkClient with
  | some c => ⟨some c, .ok c, false⟩
  | none =>
    if jsTruthyStr env.accessToken then
      match env.createResult with
      | .ok c => ⟨some c, .ok c, true⟩
      | .error e => ⟨none, .error e, true⟩
    else ⟨none, .error missingTokenMsg, false⟩

/-- `resetSDKClient` (lines 43-46): unconditionally clears the stored
handle. -/
def resetSDKClient (_sdkClient : Option Nat) : Option Nat := none

/-! ### Interleaved view

`getSDKClient` suspends exactly once, at `await WecanComply.create`.
Under the cooperative single-threaded model each call is therefore two
atomic segments: segment one runs from entry up to starting `create`
(or returns/throws before it), segment two resumes when `create`
settles, assigns the module variable on success, and returns. A task
records where its call stands; a schedule is the list of task indices
in execution order. -/

/-- Progress of one in-flight `getSDKClient` call. -/
inductive TaskState where
  | notStarted
  | waitingCreate
  | done (r : Except String Nat)
deriving DecidableEq, Repr

/-- Shared module state plus all callers, with a counter of how many
times `WecanComply.create` has been invoked. -/
structure ConcState where
  sdkClient : Option Nat
  createCount : Nat
  tasks : List TaskState
deriving DecidableEq, Repr

/-- Environment of the interleaved runs: the access token and, for each
task index, the outcome its own `WecanComply.create` call settles with. -/
structure ConcEnv where
  accessToken : Option String
  createResult : Nat → Except String Nat

/-- Run one atomic segment of task `i`. A `notStarted` task executes the
code from entry to `await WecanComply.create`; a `waitingCreate` task
resumes at that await with its create outcome; a finished task (or an
index out of range) leaves the state unchanged. -/
def sdkStep (env : ConcEnv) (st : ConcState) (i : Nat) : ConcState :=
  match st.tasks[i]? with
  | none => st
  | some .notStarted =>
    match st.sdkClient with
    | some c => { st with tasks := st.tasks.set i (.done (.ok c)) }
    | none =>
      if jsTruthyStr env.accessToken then
        { st with createCount := st.createCount + 1, tasks := st.tasks.set i .waitingCreate }
      else
        { st with tasks := st.tasks.set i (.done (.error missingTokenMsg)) }
  | some .waitingCreate =>
    match env.createResult i with
    | .ok c => { st with sdkClient := some c, tasks := st.tasks.set i (.done (.ok c)) }
    | .error e => { st with tasks := st.tasks.set i (.done (.error e)) }
  | some (.done _) => st

/-- Run a whole schedule of atomic segments. -/
def sdkRun (env : ConcEnv) (st : ConcState) (sched : List Nat) : ConcState :=
  sched.foldl (sdkStep env) st

/-- Initial state: handle absent, no create performed, `n` callers none
of which has begun. -/
def sdkInit (n : Nat) : ConcState :=
  ⟨none, 0, List.replicate n .notStarted⟩

/-! ## Request gateway (`src/routes/vault.ts` and the health route)

JSON values carried in request bodies, query strings and responses. -/

/-- A JSON value as JavaScript sees it (`undefined` for an absent field
is `Option.none` at use sites). -/
inductive JVal where
  | jnull
  | jbool (b : Bool)
  | jnum (n : Int)
  | jstr (s : String)
  | jarr (elems : List JVal)
  | jobj (fields : List (String × JVal))

/-- Property access `v.k` on a JavaScript value: a lookup on an object,
`undefined` otherwise. -/
def JVal.getField : JVal → String → Option JVal
  | .jobj fields, k => fields.lookup k
  | _, _ => none

/-- JavaScript truthiness of `JVal | undefined`: `undefined`, `null`,
`false`, `0` and `""` are falsy. -/
def jsTruthy : Option JVal → Bool
  | none => false
  | some .jnull => false
  | some (.jbool b) => b
  | some (.jnum n) => decide (n ≠ 0)
  | some (.jstr s) => decide (s ≠ "")
  | some (.jarr _) => true
  | some (.jobj _) => true

/-- `Array.isArray` on `JVal | undefined`. -/
def isArrayJS : Option JVal → Bool
  | some (.jarr _) => true
  | _ => false

/-- `typeof v === 'string'` on `JVal | undefined`. -/
def isStringJS : Option JVal → Bool
  | some (.jstr _) => true
  | _ => false

/-- The error object caught by a route's `catch` block: its `message`
and the optional `error.response.status` the backend attached. -/
structure BackendError where
  message : String
  responseStatus : Option Nat
deriving DecidableEq, Repr

/-- `error?.response?.status || 500`: the reported status when it is
present and truthy (a missing or zero status falls back to 500). -/
def jsStatusOr500 : Option Nat → Nat
  | some s => if s = 0 then 500 else s
  | none => 500

/-- The fixed error envelope `{error, message}` every failure path
produces. -/
def errorEnvelope (error message : String) : JVal :=
  .jobj [("error", .jstr error), ("message", .jstr message)]

/-- A response body: JSON, or raw bytes with the headers the file route
sets. -/
inductive RespBody where
  | json (v : JVal)
  | bytes (buf : List Nat) (contentType : String) (contentDisposition : String)

/-- An HTTP response of the gateway. -/
structure HttpResponse where
  status : Nat
  body : RespBody

/-- The `catch` block shared (textually repeated) by every route in
`src/routes/vault.ts`: status from `error?.response?.status || 500`,
body `{error: <category>, message: error.message}`. -/
def catchResponse (category : String) (e : BackendError) : HttpResponse :=
  ⟨jsStatusOr500 e.responseStatus, .json (errorEnvelope category e.message)⟩

/-- A route sees the lifecycle manager and backend as: either
`getSDKClient` throws (the `String` is the thrown message, mapped by the
same `catch` with no `response.status`), or it yields a client whose
relevant operation is a function from the call arguments to a result or
a thrown `BackendError`. -/
def ClientOp (α β : Type) := Except String (α → Except BackendError β)

/-- Arguments of `client.createVault` as the route passes them: the
`workspaceUuid` path parameter and the four destructured body fields,
forwarded as-is. -/
structure CreateVaultCall where
  workspaceUuid : String
  name : Option JVal
  template_type : Option JVal
  push_category_uuid : Option JVal
  relation_uuids : Option JVal

/-- `POST /:workspaceUuid/vaults` (lines 406-441 of
`src/routes/vault.ts`): require the four body fields truthy, require
`relation_uuids` to be an array, then call `createVault` and return its
vault as JSON; failures go through the shared `catch`. The second
component records the backend call if one was made. -/
def createVaultHandler (client : ClientOp CreateVaultCall JVal)
    (workspaceUuid : String) (body : JVal) :
    HttpResponse × Option CreateVaultCall :=
  let name := body.getField "name"
  let template_type := body.getField "template_type"
  let push_category_uuid := body.getField "push_category_uuid"
  let relation_uuids := body.getField "relation_uuids"
  if ¬(jsTruthy name ∧ jsTruthy template_type ∧ jsTruthy push_category_uuid ∧
      jsTruthy relation_uuids) then
    (⟨400, .json (errorEnvelope "Invalid request"
        "name, template_type, push_category_uuid, and relation_uuids are required")⟩, none)
  else if ¬ isArrayJS relation_uuids then
    (⟨400, .json (errorEnvelope "Invalid request" "relation_uuids must be an array")⟩, none)
  else
    match client with
    | .error msg => (catchResponse "Failed to create vault" ⟨msg, none⟩, none)
    | .ok createVault =>
      let call : CreateVaultCall :=
        ⟨workspaceUuid, name, template_type, push_category_uuid, relation_uuids⟩
      match createVault call with
      | .ok vault => (⟨200, .json vault⟩, some call)
      | .error e => (catchResponse "Failed to create vault" e, some call)

/-- Arguments of `client.saveVaultAnswers`. -/
structure SaveAnswersCall where
  workspaceUuid : String
  vaultId : String
  answers : Option JVal

/-- `PUT /:workspaceUuid/vaults/:vaultId/answers` (lines 175-197):
require `answers` to be a truthy array, then save and acknowledge. -/
def saveAnswersHandler (client : ClientOp SaveAnswersCall Unit)
    (workspaceUuid vaultId : String) (body : JVal) :
    HttpResponse × Option SaveAnswersCall :=
  let answers := body.getField "answers"
  if ¬ jsTruthy answers ∨ ¬ isArrayJS answers then
    (⟨400, .json (errorEnvelope "Invalid request" "answers must be an array")⟩, none)
  else
    match client with
    | .error msg => (catchResponse "Failed to save vault answers" ⟨msg, none⟩, none)
    | .ok save =>
      let call : SaveAnswersCall := ⟨workspaceUuid, vaultId, answers⟩
      match save call with
      | .ok _ => (⟨200, .json (.jobj [("success", .jbool true),
          ("message", .jstr "Answers saved successfully")])⟩, some call)
      | .error e => (catchResponse "Failed to save vault answers" e, some call)

/-- Arguments of `client.shareVault`. -/
structure ShareVaultCall where
  workspaceUuid : String
  vaultId : String
  relation_uuid : Option JVal

/-- `POST /:workspaceUuid/vaults/:vaultId/share` (lines 487-509):
require `relation_uuid` truthy, then share and acknowledge. -/
def shareVaultHandler (client : ClientOp ShareVaultCall Unit)
    (workspaceUuid vaultId : String) (body : JVal) :
    HttpResponse × Option ShareVaultCall :=
  let relation_uuid := body.getField "relation_uuid"
  if ¬ jsTruthy relation_uuid then
    (⟨400, .json (errorEnvelope "Invalid request" "relation_uuid is required")⟩, none)
  else
    match client with
    | .error msg => (catchResponse "Failed to share vault" ⟨msg, none⟩, none)
    | .ok share =>
      let call : ShareVaultCall := ⟨workspaceUuid, vaultId, relation_uuid⟩
      match share call with
      | .ok _ => (⟨200, .json (.jobj [("success", .jbool true),
          ("message", .jstr "Vault shared successfully")])⟩, some call)
      | .error e => (catchResponse "Failed to share vault" e, some call)

/-- Arguments of `client.downloadVaultFile`: the route passes only the
workspace UUID, the file UUID, and the mimetype. -/
structure DownloadFileCall where
  workspaceUuid : String
  fileUuid : String
  mimetype : String
deriving DecidableEq, Repr

/-- `GET /:workspaceUuid/vaults/:vaultId/files/:fileUuid` (lines
237-266): require the `mimetype` query parameter to be a truthy string,
download, and answer the raw bytes with `Content-Type` set to the
mimetype and a `Content-Disposition` attachment named after the file
UUID. The `vaultId` path parameter is never read. -/
def downloadFileHandler (client : ClientOp DownloadFileCall (List Nat))
    (workspaceUuid vaultId fileUuid : String) (mimetypeQ : Option JVal) :
    HttpResponse × Option DownloadFileCall :=
  if ¬ jsTruthy mimetypeQ ∨ ¬ isStringJS mimetypeQ then
    (⟨400, .json (errorEnvelope "Invalid request" "mimetype query parameter is required")⟩, none)
  else
    let mimetype := match mimetypeQ with
      | some (.jstr s) => s
      | _ => ""
    match client with
    | .error msg => (catchResponse "Failed to download vault file" ⟨msg, none⟩, none)
    | .ok download =>
      let call : DownloadFileCall := ⟨workspaceUuid, fileUuid, mimetype⟩
      match download call with
      | .ok buf =>
        (⟨200, .bytes buf mimetype ("attachment; filename=\"" ++ fileUuid ++ "\"")⟩, some call)
      | .error e => (catchResponse "Failed to download vault file" e, some call)

/-- `GET /health` (`src/routes/health.ts`, quoted in full in the README
at lines 318-353): try `getSDKClient()`; report 200 healthy on success
and 503 unhealthy with the caught error message on any failure. `now`
is the serialized current time. -/
def healthHandler (clientResult : Except String Nat) (now : String) : HttpResponse :=
  match clientResult with
  | .ok _ => ⟨200, .json (.jobj [("status", .jstr "healthy"), ("timestamp", .jstr now),
      ("service", .jstr "wecan-comply-middleware")])⟩
  | .error e => ⟨503, .json (.jobj [("status", .jstr "unhealthy"), ("timestamp", .jstr now),
      ("service", .jstr "wecan-comply-middleware"), ("error", .jstr e)])⟩

/-! ## Shared lemmas -/

lemma jsOrElse_absent {x : Option String} (h : x = none ∨ x = some "") (d : String) :
    jsOrElse x d = d := by
  rcases h with h | h <;> subst h <;> simp [jsOrElse]

lemma jsOrElse_present {x : Option String} {s : String} (h : x = some s) (hs : s ≠ "")
    (d : String) : jsOrElse x d = s := by
  subst h; simp [jsOrElse, hs]

/-! ## Theorems for the claims -/

/-- C8: after a successful initialization, a second `getSDKClient` call
returns the very same handle, leaves the stored handle unchanged, and
performs no new `WecanComply.create` call, whatever the environment of
the second call. -/
theorem getSDKClient_idempotent (env env' : SdkEnv) (c : Nat)
    (h : (getSDKClient env none).result = .ok c) :
    getSDKClient env' (getSDKClient env none).state =
      ⟨(getSDKClient env none).state, .ok c, false⟩ := by
  by_cases ht : jsTruthyStr env.accessToken
  · cases hcr : env.createResult with
    | ok c' =>
      have hs : (getSDKClient env none).state = some c' := by
        simp [getSDKClient, ht, hcr]
      have : c' = c := by
        have := h
        simp [getSDKClient, ht, hcr] at this
        exact this
      subst this
      rw [hs]
      rfl
    | error e =>
      exfalso
      have := h
      simp [getSDKClient, ht, hcr] at this
  · exfalso
    have := h
    simp [getSDKClient, ht] at this

/-- C8 witness: a concrete successful initialization followed by a
second call. -/
theorem getSDKClient_idempotent_witness :
    getSDKClient ⟨some "tok", .ok 7⟩ (getSDKClient ⟨some "tok", .ok 7⟩ none).state =
      ⟨(getSDKClient ⟨some "tok", .ok 7⟩ none).state, .ok 7, false⟩ :=
  getSDKClient_idempotent ⟨some "tok", .ok 7⟩ ⟨some "tok", .ok 7⟩ 7 (by decide)

/-- C6: whenever a `getSDKClient` call starting from the absent state
fails — absent token or a throwing `WecanComply.create` — the stored
handle is still absent afterwards, and a subsequent call with a token
present performs a fresh `WecanComply.create` instead of reusing a
cached failure. -/
theorem getSDKClient_failure_leaves_absent (env : SdkEnv) (e : String)
    (h : (getSDKClient env none).result = .error e) :
    (getSDKClient env none).state = none ∧
      ∀ env' : SdkEnv, jsTruthyStr env'.accessToken = true →
        (getSDKClient env' (getSDKClient env none).state).didCreate = true := by
  have hs : (getSDKClient env none).state = none := by
    by_cases ht : jsTruthyStr env.accessToken
    · cases hcr : env.createResult with
      | ok c =>
        exfalso
        have := h
        simp [getSDKClient, ht, hcr] at this
      | error e' => simp [getSDKClient, ht, hcr]
    · simp [getSDKClient, ht]
  refine ⟨hs, fun env' ht' => ?_⟩
  rw [hs]
  cases hcr : env'.createResult with
  | ok c => simp [getSDKClient, ht', hcr]
  | error e' => simp [getSDKClient, ht', hcr]

/-- C6 witness: the absent-token failure leaves the handle absent and a
later call with a token performs a create. -/
theorem getSDKClient_failure_leaves_absent_witness :
    (getSDKClient ⟨none, .ok 5⟩ none).state = none ∧
      (getSDKClient ⟨some "t", .ok 6⟩ (getSDKClient ⟨none, .ok 5⟩ none).state).didCreate = true :=
  ⟨(getSDKClient_failure_leaves_absent ⟨none, .ok 5⟩ missingTokenMsg (by decide)).1,
    (getSDKClient_failure_leaves_absent ⟨none, .ok 5⟩ missingTokenMsg (by decide)).2
      ⟨some "t", .ok 6⟩ (by decide)⟩

/-- C9: `resetSDKClient` returns the manager to the absent state from
any state, and the next `getSDKClient` call (token present) performs a
fresh `WecanComply.create` whose outcome — not any pre-reset handle —
becomes the result of the call. -/
theorem resetSDKClient_fresh (st : Option Nat) (env : SdkEnv)
    (h : jsTruthyStr env.accessToken = true) :
    resetSDKClient st = none ∧
      (getSDKClient env (resetSDKClient st)).didCreate = true ∧
      (getSDKClient env (resetSDKClient st)).result = env.createResult := by
  refine ⟨rfl, ?_, ?_⟩ <;>
    cases hcr : env.createResult with
  | ok c => simp [getSDKClient, resetSDKClient, h, hcr]
  | error e => simp [getSDKClient, resetSDKClient, h, hcr]

/-- C9 witness: reset from a ready state with handle 3, next call
creates anew and returns the fresh handle 9. -/
theorem resetSDKClient_fresh_witness :
    resetSDKClient (some 3) = none ∧
      (getSDKClient ⟨some "t", .ok 9⟩ (resetSDKClient (some 3))).didCreate = true ∧
      (getSDKClient ⟨some "t", .ok 9⟩ (resetSDKClient (some 3))).result = .ok 9 :=
  resetSDKClient_fresh (some 3) ⟨some "t", .ok 9⟩ (by decide)

/-- C10: the file-download route reads neither its `vaultId` path
parameter nor anything derived from it: two requests differing only in
`vaultId` produce the same backend call and the same response. -/
theorem downloadFileHandler_vaultId_irrelevant
    (client : ClientOp DownloadFileCall (List Nat))
    (workspaceUuid vaultId vaultId' fileUuid : String) (mimetypeQ : Option JVal) :
    downloadFileHandler client workspaceUuid vaultId fileUuid mimetypeQ =
      downloadFileHandler client workspaceUuid vaultId' fileUuid mimetypeQ := rfl

/-- C7: the health endpoint is a total mapping from the `getSDKClient`
outcome to a structured response — 503 with status unhealthy and the
error message on any failure, 200 with status healthy on success — and
in particular an absent secret token makes the health check answer 503
unhealthy with the missing-token message. -/
theorem healthHandler_structured (r : Except String Nat) (now : String) :
    (∀ e, r = .error e → healthHandler r now =
      ⟨503, .json (.jobj [("status", .jstr "unhealthy"), ("timestamp", .jstr now),
        ("service", .jstr "wecan-comply-middleware"), ("error", .jstr e)])⟩) ∧
    (∀ c, r = .ok c → healthHandler r now =
      ⟨200, .json (.jobj [("status", .jstr "healthy"), ("timestamp", .jstr now),
        ("service", .jstr "wecan-comply-middleware")])⟩) ∧
    (∀ env : SdkEnv, jsTruthyStr env.accessToken = false →
      healthHandler (getSDKClient env none).result now =
        ⟨503, .json (.jobj [("status", .jstr "unhealthy"), ("timestamp", .jstr now),
          ("service", .jstr "wecan-comply-middleware"), ("error", .jstr missingTokenMsg)])⟩) := by
  refine ⟨fun e he => ?_, fun c hc => ?_, fun env ht => ?_⟩
  · subst he; rfl
  · subst hc; rfl
  · simp [getSDKClient, ht, healthHandler]

/-- C7 witness: a concrete failing outcome and the concrete
absent-token scenario. -/
theorem healthHandler_structured_witness :
    healthHandler (.error "boom") "2025-01-20T10:00:00.000Z" =
      ⟨503, .json (.jobj [("status", .jstr "unhealthy"),
        ("timestamp", .jstr "2025-01-20T10:00:00.000Z"),
        ("service", .jstr "wecan-comply-middleware"), ("error", .jstr "boom")])⟩ ∧
    healthHandler (getSDKClient ⟨none, .ok 5⟩ none).result "T" =
      ⟨503, .json (.jobj [("status", .jstr "unhealthy"), ("timestamp", .jstr "T"),
        ("service", .jstr "wecan-comply-middleware"), ("error", .jstr missingTokenMsg)])⟩ :=
  ⟨(healthHandler_structured (.error "boom") "2025-01-20T10:00:00.000Z").1 "boom" rfl,
    (healthHandler_structured (getSDKClient ⟨none, .ok 5⟩ none).result "T").2.2
      ⟨none, .ok 5⟩ rfl⟩

/-- C3: a backend error is mapped to the backend-reported HTTP status
when one is present (500 when absent), always with the fixed
`{error, message}` envelope; the create-vault route wires this mapping
to the category string `Failed to create vault`, so a backend failure
carrying status 409 yields a 409 response with that envelope and the
original message. -/
theorem backendError_status_forwarded (category : String) (e : BackendError) :
    ((catchResponse category e).body = .json (errorEnvelope category e.message)) ∧
    (∀ s, e.responseStatus = some s → 0 < s → (catchResponse category e).status = s) ∧
    (e.responseStatus = none → (catchResponse category e).status = 500) ∧
    (∀ (msg ws nm tt pc : String) (rel : List JVal),
      nm ≠ "" → tt ≠ "" → pc ≠ "" →
      (createVaultHandler (.ok (fun _ => .error ⟨msg, some 409⟩)) ws
        (.jobj [("name", .jstr nm), ("template_type", .jstr tt),
          ("push_category_uuid", .jstr pc), ("relation_uuids", .jarr rel)])).1 =
        ⟨409, .json (errorEnvelope "Failed to create vault" msg)⟩) := by
  refine ⟨rfl, fun s hs h0 => ?_, fun hn => ?_, fun msg ws nm tt pc rel hnm htt hpc => ?_⟩
  · simp [catchResponse, jsStatusOr500, hs, Nat.pos_iff_ne_zero.mp h0]
  · simp [catchResponse, jsStatusOr500, hn]
  · simp +decide [createVaultHandler, JVal.getField, List.lookup, jsTruthy, isArrayJS,
      hnm, htt, hpc, catchResponse, jsStatusOr500, errorEnvelope]

/-- C3 witness: a 404-carrying error is forwarded as 404, and the
concrete 409 create-vault scenario. -/
theorem backendError_status_forwarded_witness :
    (catchResponse "Failed to get vaults" ⟨"m", some 404⟩).status = 404 ∧
    (createVaultHandler (.ok (fun _ => .error ⟨"conflict", some 409⟩)) "w1"
      (.jobj [("name", .jstr "My New Vault"), ("template_type", .jstr "compliance"),
        ("push_category_uuid", .jstr "cat"), ("relation_uuids", .jarr [.jstr "r1"])])).1 =
      ⟨409, .json (errorEnvelope "Failed to create vault" "conflict")⟩ :=
  ⟨(backendError_status_forwarded "Failed to get vaults" ⟨"m", some 404⟩).2.1 404 rfl
      (by decide),
    (backendError_status_forwarded "Failed to create vault" ⟨"conflict", some 409⟩).2.2.2
      "conflict" "w1" "My New Vault" "compliance" "cat" [.jstr "r1"]
      (by decide) (by decide) (by decide)⟩

/-- C2 counterexample: a required field that is present but of the wrong
primitive type — a numeric `name` on vault creation — is not rejected:
validation passes, the backend is invoked, and the route answers 200,
contradicting the claim that any mistyped required field yields 400 with
no backend call. -/
theorem mistyped_field_reaches_backend :
    ((createVaultHandler (.ok (fun _ => .ok (.jobj []))) "ws"
      (.jobj [("name", .jnum 123), ("template_type", .jstr "compliance"),
        ("push_category_uuid", .jstr "cat"),
        ("relation_uuids", .jarr [.jstr "r1"])])).1.status = 200) ∧
    ((createVaultHandler (.ok (fun _ => .ok (.jobj []))) "ws"
      (.jobj [("name", .jnum 123), ("template_type", .jstr "compliance"),
        ("push_category_uuid", .jstr "cat"),
        ("relation_uuids", .jarr [.jstr "r1"])])).2.isSome = true) :=
  ⟨rfl, rfl⟩

/-- C2 (amended): the gateway rejects with 400, the `{error, message}`
envelope, and no backend call, exactly those inputs whose required
fields are missing or falsy — plus a non-array `relation_uuids` or
`answers` and a missing or non-string `mimetype`; a present-but-mistyped
truthy required field (for example a numeric `name`) is not rejected. In
particular a file download without `mimetype` yields 400 with message
`mimetype query parameter is required` and no backend call. -/
theorem validation_rejects_falsy :
    (∀ (client : ClientOp CreateVaultCall JVal) (ws : String) (body : JVal),
      ¬(jsTruthy (body.getField "name") = true ∧
        jsTruthy (body.getField "template_type") = true ∧
        jsTruthy (body.getField "push_category_uuid") = true ∧
        jsTruthy (body.getField "relation_uuids") = true) →
      createVaultHandler client ws body =
        (⟨400, .json (errorEnvelope "Invalid request"
          "name, template_type, push_category_uuid, and relation_uuids are required")⟩, none)) ∧
    (∀ (client : ClientOp CreateVaultCall JVal) (ws : String) (body : JVal),
      (jsTruthy (body.getField "name") = true ∧
        jsTruthy (body.getField "template_type") = true ∧
        jsTruthy (body.getField "push_category_uuid") = true ∧
        jsTruthy (body.getField "relation_uuids") = true) →
      ¬ isArrayJS (body.getField "relation_uuids") = true →
      createVaultHandler client ws body =
        (⟨400, .json (errorEnvelope "Invalid request" "relation_uuids must be an array")⟩,
          none)) ∧
    (∀ (client : ClientOp SaveAnswersCall Unit) (ws vid : String) (body : JVal),
      (¬ jsTruthy (body.getField "answers") = true ∨
        ¬ isArrayJS (body.getField "answers") = true) →
      saveAnswersHandler client ws vid body =
        (⟨400, .json (errorEnvelope "Invalid request" "answers must be an array")⟩, none)) ∧
    (∀ (client : ClientOp ShareVaultCall Unit) (ws vid : String) (body : JVal),
      ¬ jsTruthy (body.getField "relation_uuid") = true →
      shareVaultHandler client ws vid body =
        (⟨400, .json (errorEnvelope "Invalid request" "relation_uuid is required")⟩, none)) ∧
    (∀ (client : ClientOp DownloadFileCall (List Nat)) (ws vid fid : String)
      (mimetypeQ : Option JVal),
      (¬ jsTruthy mimetypeQ = true ∨ ¬ isStringJS mimetypeQ = true) →
      downloadFileHandler client ws vid fid mimetypeQ =
        (⟨400, .json (errorEnvelope "Invalid request" "mimetype query parameter is required")⟩,
          none)) := by
  refine ⟨fun client ws body h => ?_, fun client ws body h1 h2 => ?_,
    fun client ws vid body h => ?_, fun client ws vid body h => ?_,
    fun client ws vid fid mimetypeQ h => ?_⟩
  · simp only [createVaultHandler]
    rw [if_pos h]
  · simp only [createVaultHandler]
    rw [if_neg (not_not_intro h1), if_pos h2]
  · simp only [saveAnswersHandler]
    rw [if_pos h]
  · simp only [shareVaultHandler]
    rw [if_pos h]
  · simp only [downloadFileHandler]
    rw [if_pos h]

/-- C2 witness: the concrete missing-mimetype scenario of the claim. -/
theorem validation_rejects_falsy_witness :
    downloadFileHandler (.ok (fun _ => .ok [])) "abc" "xyz" "f1" none =
      (⟨400, .json (errorEnvelope "Invalid request" "mimetype query parameter is required")⟩,
        none) :=
  validation_rejects_falsy.2.2.2.2 (.ok (fun _ => .ok [])) "abc" "xyz" "f1" none
    (Or.inl (by decide))

/-- C4 counterexample: `cors.enabled` with its environment variable
unset does not fall back to the file value — the file says `false`, the
resolved configuration says `true` — so it is not the case that for
every overridable field the file value is used when no environment
value applies. -/
theorem resolve_cors_ignores_file :
    (resolve ⟨none, none, none, none, none, none, none, none, none, none⟩
      ⟨⟨3000, "localhost"⟩, ⟨"https://w", 30000, 3⟩, ⟨"info", "json"⟩,
        ⟨false, "*"⟩⟩).cors.enabled = true ∧
    (⟨⟨3000, "localhost"⟩, ⟨"https://w", 30000, 3⟩, ⟨"info", "json"⟩,
      ⟨false, "*"⟩⟩ : FileAppConfig).cors.enabled = false :=
  ⟨rfl, rfl⟩

/-- C4 (amended): precedence is applied field-by-field. For every field
except `cors.enabled`: a present, non-empty environment value wins (for
the numeric fields as its `parseInt` image), and an absent or empty
environment value makes the file value win (for the numeric fields via
the `parseInt`/`String` round trip). `cors.enabled` alone never consults
the file: it is `true` unless its environment variable is exactly the
string `false`. -/
theorem resolve_field_precedence (env : Env) (file : FileAppConfig) :
    ((env.PORT = none ∨ env.PORT = some "") →
      (resolve env file).server.port = some file.server.port) ∧
    (∀ s, env.PORT = some s → s ≠ "" → (resolve env file).server.port = parseIntJS s) ∧
    ((env.HOST = none ∨ env.HOST = some "") →
      (resolve env file).server.host = file.server.host) ∧
    (∀ s, env.HOST = some s → s ≠ "" → (resolve env file).server.host = s) ∧
    ((env.WECAN_WORKSPACE_URL_TEMPLATE = none ∨ env.WECAN_WORKSPACE_URL_TEMPLATE = some "") →
      (resolve env file).wecanComply.workspaceUrlTemplate =
        file.wecanComply.workspaceUrlTemplate) ∧
    (∀ s, env.WECAN_WORKSPACE_URL_TEMPLATE = some s → s ≠ "" →
      (resolve env file).wecanComply.workspaceUrlTemplate = s) ∧
    ((env.WECAN_TIMEOUT_MS = none ∨ env.WECAN_TIMEOUT_MS = some "") →
      (resolve env file).wecanComply.timeoutMs = some file.wecanComply.timeoutMs) ∧
    (∀ s, env.WECAN_TIMEOUT_MS = some s → s ≠ "" →
      (resolve env file).wecanComply.timeoutMs = parseIntJS s) ∧
    ((env.WECAN_RETRIES = none ∨ env.WECAN_RETRIES = some "") →
      (resolve env file).wecanComply.retries = some file.wecanComply.retries) ∧
    (∀ s, env.WECAN_RETRIES = some s → s ≠ "" →
      (resolve env file).wecanComply.retries = parseIntJS s) ∧
    ((env.LOG_LEVEL = none ∨ env.LOG_LEVEL = some "") →
      (resolve env file).logging.level = file.logging.level) ∧
    (∀ s, env.LOG_LEVEL = some s → s ≠ "" → (resolve env file).logging.level = s) ∧
    ((env.LOG_FORMAT = none ∨ env.LOG_FORMAT = some "") →
      (resolve env file).logging.format = file.logging.format) ∧
    (∀ s, env.LOG_FORMAT = some s → s ≠ "" → (resolve env file).logging.format = s) ∧
    ((env.CORS_ORIGIN = none ∨ env.CORS_ORIGIN = some "") →
      (resolve env file).cors.origin = file.cors.origin) ∧
    (∀ s, env.CORS_ORIGIN = some s → s ≠ "" → (resolve env file).cors.origin = s) ∧
    ((resolve env file).cors.enabled = decide (env.CORS_ENABLED ≠ some "false")) := by
  refine ⟨fun h => ?_, fun s hs h => ?_, fun h => ?_, fun s hs h => ?_, fun h => ?_,
    fun s hs h => ?_, fun h => ?_, fun s hs h => ?_, fun h => ?_, fun s hs h => ?_,
    fun h => ?_, fun s hs h => ?_, fun h => ?_, fun s hs h => ?_, fun h => ?_,
    fun s hs h => ?_, rfl⟩ <;>
    first
    | simp only [resolve, jsOrElse_absent h, parseIntJS_intDecString]
    | simp only [resolve, jsOrElse_present hs h]

/-- C4 witness: at a concrete environment overriding the port and
leaving the host unset, the environment port wins and the file host
wins. -/
theorem resolve_field_precedence_witness :
    (resolve ⟨some "8080", none, none, none, none, none, none, none, none, none⟩
      ⟨⟨3000, "localhost"⟩, ⟨"https://w", 30000, 3⟩, ⟨"info", "json"⟩,
        ⟨true, "*"⟩⟩).server.port = parseIntJS "8080" ∧
    (resolve ⟨some "8080", none, none, none, none, none, none, none, none, none⟩
      ⟨⟨3000, "localhost"⟩, ⟨"https://w", 30000, 3⟩, ⟨"info", "json"⟩,
        ⟨true, "*"⟩⟩).server.host = "localhost" :=
  ⟨(resolve_field_precedence
      ⟨some "8080", none, none, none, none, none, none, none, none, none⟩
      ⟨⟨3000, "localhost"⟩, ⟨"https://w", 30000, 3⟩, ⟨"info", "json"⟩,
        ⟨true, "*"⟩⟩).2.1 "8080" rfl (by decide),
    (resolve_field_precedence
      ⟨some "8080", none, none, none, none, none, none, none, none, none⟩
      ⟨⟨3000, "localhost"⟩, ⟨"https://w", 30000, 3⟩, ⟨"info", "json"⟩,
        ⟨true, "*"⟩⟩).2.2.1 (Or.inl rfl)⟩

/-- C5 counterexample: with `WECAN_TIMEOUT_MS` set to the non-numeric
string `abc`, configuration resolution neither fails nor falls back to
the file value 30000: it produces the corrupt `NaN` timeout (modelled as
`none`). -/
theorem resolve_unparsable_timeout_is_nan :
    (resolve ⟨none, none, none, some "abc", none, none, none, none, none, none⟩
      ⟨⟨3000, "localhost"⟩, ⟨"https://w", 30000, 3⟩, ⟨"info", "json"⟩,
        ⟨true, "*"⟩⟩).wecanComply.timeoutMs = none := by decide

/-- C5 (amended): for each numeric field, an environment value that is
set and non-empty but fails to parse makes resolution silently produce
`NaN` (`none`) for that field; resolution is total, so startup never
fails on it. -/
theorem resolve_unparsable_numeric_silent (env : Env) (file : FileAppConfig) :
    (∀ s, env.PORT = some s → s ≠ "" → parseIntJS s = none →
      (resolve env file).server.port = none) ∧
    (∀ s, env.WECAN_TIMEOUT_MS = some s → s ≠ "" → parseIntJS s = none →
      (resolve env file).wecanComply.timeoutMs = none) ∧
    (∀ s, env.WECAN_RETRIES = some s → s ≠ "" → parseIntJS s = none →
      (resolve env file).wecanComply.retries = none) := by
  refine ⟨fun s hs h hp => ?_, fun s hs h hp => ?_, fun s hs h hp => ?_⟩ <;>
    simp only [resolve, jsOrElse_present hs h, hp]

/-- C5 witness: all three numeric fields set to unparsable strings
resolve to `NaN`. -/
theorem resolve_unparsable_numeric_silent_witness :
    (resolve ⟨some "abc", none, none, some "xyz", some "zz", none, none, none, none, none⟩
      ⟨⟨3000, "localhost"⟩, ⟨"https://w", 30000, 3⟩, ⟨"info", "json"⟩,
        ⟨true, "*"⟩⟩).server.port = none ∧
    (resolve ⟨some "abc", none, none, some "xyz", some "zz", none, none, none, none, none⟩
      ⟨⟨3000, "localhost"⟩, ⟨"https://w", 30000, 3⟩, ⟨"info", "json"⟩,
        ⟨true, "*"⟩⟩).wecanComply.timeoutMs = none :=
  ⟨(resolve_unparsable_numeric_silent
      ⟨some "abc", none, none, some "xyz", some "zz", none, none, none, none, none⟩
      ⟨⟨3000, "localhost"⟩, ⟨"https://w", 30000, 3⟩, ⟨"info", "json"⟩,
        ⟨true, "*"⟩⟩).1 "abc" rfl (by decide) (by decide),
    (resolve_unparsable_numeric_silent
      ⟨some "abc", none, none, some "xyz", some "zz", none, none, none, none, none⟩
      ⟨⟨3000, "localhost"⟩, ⟨"https://w", 30000, 3⟩, ⟨"info", "json"⟩,
        ⟨true, "*"⟩⟩).2.1 "xyz" rfl (by decide) (by decide)⟩

/-! ### Interleaving lemmas for the lifecycle manager -/

lemma sdkRun_append (env : ConcEnv) (st : ConcState) (sched : List Nat) (i : Nat) :
    sdkRun env st (sched ++ [i]) = sdkStep env (sdkRun env st sched) i := by
  simp [sdkRun, List.foldl_append]

lemma set_len_append {α : Type} (l1 l2 : List α) (a : α) :
    (l1 ++ l2).set l1.length a = l1 ++ l2.set 0 a := by
  induction l1 with
  | nil => rfl
  | cons b t ih => simpa [List.cons_append, List.length_cons] using ih

lemma set_replicate_append {α : Type} (k m : Nat) (w ns : α) (hm : 0 < m) :
    (List.replicate k w ++ List.replicate m ns).set k w =
      List.replicate (k + 1) w ++ List.replicate (m - 1) ns := by
  have h1 : (List.replicate k w ++ List.replicate m ns).set k w
      = List.replicate k w ++ (List.replicate m ns).set 0 w := by
    simpa using set_len_append (List.replicate k w) (List.replicate m ns) w
  rw [h1]
  obtain ⟨m', rfl⟩ : ∃ m', m = m' + 1 := ⟨m - 1, by omega⟩
  have h2 : (List.replicate (m' + 1) ns).set 0 w = w :: List.replicate m' ns := by
    rw [List.replicate_succ]
    rfl
  have h3 : List.replicate (k + 1) w ++ List.replicate (m' + 1 - 1) ns
      = List.replicate k w ++ (w :: List.replicate m' ns) := by
    rw [List.replicate_succ', List.append_assoc]
    simp
  rw [h2, h3]

lemma sdkRun_range_inv (env : ConcEnv) (ht : jsTruthyStr env.accessToken = true)
    (n : Nat) : ∀ k, k ≤ n →
    sdkRun env (sdkInit n) (List.range k) =
      ⟨none, k, List.replicate k .waitingCreate ++ List.replicate (n - k) .notStarted⟩ := by
  intro k
  induction k with
  | zero => intro _; simp [sdkRun, sdkInit]
  | succ k ih =>
    intro hk
    have hk' : k ≤ n := Nat.le_of_succ_le hk
    rw [List.range_succ, sdkRun_append, ih hk']
    have hget : (List.replicate k TaskState.waitingCreate ++
        List.replicate (n - k) TaskState.notStarted)[k]? = some TaskState.notStarted := by
      rw [List.getElem?_append_right (by simp)]
      have hnk : n - k = (n - (k + 1)) + 1 := by omega
      simp [hnk, List.replicate_succ]
    have htasks := set_replicate_append k (n - k) TaskState.waitingCreate
      TaskState.notStarted (by omega)
    simp only [sdkStep, hget, ht, if_true]
    rw [ConcState.mk.injEq]
    exact ⟨rfl, rfl, htasks⟩

lemma sdkStep_ready (env : ConcEnv) (st : ConcState) (i : Nat) (c : Nat)
    (h : st.sdkClient = some c) :
    (sdkStep env st i).createCount = st.createCount ∧
      ∃ c', (sdkStep env st i).sdkClient = some c' := by
  obtain ⟨sc, cc, tasks⟩ := st
  simp only at h
  subst h
  cases hg : tasks[i]? with
  | none => exact ⟨by simp [sdkStep, hg], c, by simp [sdkStep, hg]⟩
  | some ts =>
    cases ts with
    | notStarted => exact ⟨by simp [sdkStep, hg], c, by simp [sdkStep, hg]⟩
    | waitingCreate =>
      cases hr : env.createResult i with
      | ok c' => exact ⟨by simp [sdkStep, hg, hr], c', by simp [sdkStep, hg, hr]⟩
      | error e => exact ⟨by simp [sdkStep, hg, hr], c, by simp [sdkStep, hg, hr]⟩
    | done r => exact ⟨by simp [sdkStep, hg], c, by simp [sdkStep, hg]⟩

lemma sdkRun_ready (env : ConcEnv) (sched : List Nat) :
    ∀ (st : ConcState) (c : Nat), st.sdkClient = some c →
      (sdkRun env st sched).createCount = st.createCount := by
  induction sched with
  | nil => intro st c _; rfl
  | cons i rest ih =>
    intro st c h
    obtain ⟨hc, c', h'⟩ := sdkStep_ready env st i c h
    have hr : sdkRun env st (i :: rest) = sdkRun env (sdkStep env st i) rest := rfl
    rw [hr, ih (sdkStep env st i) c' h', hc]

/-- C1 counterexample: two `getSDKClient` callers both perform their
null-check before either create completes (schedule: both first
segments, then both create resolutions). Each starts its own
`WecanComply.create`: the create counter ends at 2, not 1, and the two
callers finish with two different handles rather than sharing one
outcome. -/
theorem concurrent_init_two_creates :
    (sdkRun ⟨some "tok", fun i => .ok (i + 1)⟩ (sdkInit 2) [0, 1, 0, 1]).createCount = 2 ∧
    (sdkRun ⟨some "tok", fun i => .ok (i + 1)⟩ (sdkInit 2) [0, 1, 0, 1]).createCount ≠ 1 ∧
    (sdkRun ⟨some "tok", fun i => .ok (i + 1)⟩ (sdkInit 2) [0, 1, 0, 1]).tasks =
      [.done (.ok 1), .done (.ok 2)] := by
  refine ⟨rfl, by decide, rfl⟩

/-- C1 (amended): the manager does not serialize initialization. Every
caller whose first segment runs while the handle is absent (token
present) starts its own create: `k` callers all beginning before any
initialization completes perform exactly `k` `WecanComply.create` calls
and still leave the handle absent until a create resolves. Only callers
that begin after the handle is stored perform no create at all. -/
theorem create_count_equals_early_callers (env : ConcEnv) (k n : Nat)
    (hk : k ≤ n) (ht : jsTruthyStr env.accessToken = true) :
    ((sdkRun env (sdkInit n) (List.range k)).createCount = k ∧
      (sdkRun env (sdkInit n) (List.range k)).sdkClient = none) ∧
    (∀ (st : ConcState) (sched : List Nat) (c : Nat), st.sdkClient = some c →
      (sdkRun env st sched).createCount = st.createCount) := by
  refine ⟨?_, fun st sched c h => sdkRun_ready env sched st c h⟩
  rw [sdkRun_range_inv env ht n k hk]
  exact ⟨rfl, rfl⟩

/-- C1 witness: two of three possible callers begin before any create
completes and perform two creates; a run from a ready state performs
none. -/
theorem create_count_equals_early_callers_witness :
    ((sdkRun ⟨some "t", fun _ => .ok 5⟩ (sdkInit 3) (List.range 2)).createCount = 2 ∧
      (sdkRun ⟨some "t", fun _ => .ok 5⟩ (sdkInit 3) (List.range 2)).sdkClient = none) ∧
    (sdkRun ⟨some "t", fun _ => .ok 5⟩ ⟨some 4, 7, [.notStarted]⟩ [0, 0]).createCount = 7 :=
  ⟨(create_count_equals_early_callers ⟨some "t", fun _ => .ok 5⟩ 2 3
      (by decide) (by decide)).1,
    (create_count_equals_early_callers ⟨some "t", fun _ => .ok 5⟩ 2 3
      (by decide) (by decide)).2 ⟨some 4, 7, [.notStarted]⟩ [0, 0] 4 rfl⟩

end Middleware
